import Mathlib

/-!
Verification of the streaming-proxy / conversation-memory subsystem
(`run.py`, `shoggoth_utils.py`) against its design document.

The Python sources are shallowly embedded below: pure functions become Lean
functions; the per-request handler `proxy_chat_completions` becomes a pure
function from its inputs (query parameter, JSON body, upstream outcome,
Redis availability, current store) to an outcome, an ordered trace of
observable events, and the new store contents.  A crucial point of the
embedding is Python's `try/return/finally` semantics: the `finally` block of
the handler runs when the handler *returns* the streaming response object,
i.e. before the web framework drains the async generator, so the event
trace places the bookkeeping events before the chunk-yield events.
-/

namespace Shoggoth

/-- `Message` (run.py lines 51-53): one chat message, a role and a content
string. -/
structure Message where
  role : String
  content : String
deriving Repr, DecidableEq

/-- `ConversationExample` (shoggoth_utils.py lines 13-28): a full message
history paired with the generated response text. -/
structure ConversationExample where
  messages : List Message
  response : String
deriving Repr, DecidableEq

/-! ### The bounded deque (`collections.deque(maxlen=1000)`) -/

/-- The last `n` elements of a list, in order: the contents of
`deque(l, maxlen=n)`. -/
def takeLast (n : Nat) (l : List α) : List α :=
  l.drop (l.length - n)

/-- One `deque.append` on a deque with `maxlen = cap`: appends at the tail
and, when the deque is full, evicts the head. -/
def dequeAppend (cap : Nat) (q : List α) (x : α) : List α :=
  if q.length < cap then q ++ [x] else (q.drop 1) ++ [x]

/-- A sequence of `deque.append`s. -/
def dequeAppendAll (cap : Nat) (q : List α) (xs : List α) : List α :=
  xs.foldl (dequeAppend cap) q

/-! ### History extraction -/

/-- `extract_current_message_and_history` (run.py lines 89-97): the last
message is the current input, everything before it is history; the empty
sequence yields `("", [])`. -/
def extract_current_message_and_history (messages : List Message) :
    String × List Message :=
  match messages.getLast? with
  | none => ("", [])
  | some m => (m.content, messages.dropLast)

/-- Helper for the scan-from-the-end loop of
`extract_current_message_and_history_from_messages` (shoggoth_utils.py
lines 126-130): locate the *last* message whose role is `"user"` and return
the messages strictly before it together with that message. -/
def splitLastUser : List Message → Option (List Message × Message)
  | [] => none
  | m :: ms =>
    match splitLastUser ms with
    | some (pre, u) => some (m :: pre, u)
    | none => if m.role = "user" then some ([], m) else none

/-- `extract_current_message_and_history_from_messages` (shoggoth_utils.py
lines 117-136): the last `user`-role message is current and the messages
strictly before it are history; with no user message, current is empty and
the whole list is history (the empty list hits the same fallback). -/
def extract_current_message_and_history_from_messages
    (messages : List Message) : String × List Message :=
  match splitLastUser messages with
  | some (pre, u) => (u.content, pre)
  | none => ("", messages)

/-! ### A model of JSON values

Request bodies and the Redis snapshot are JSON.  The `json.dumps` /
`json.loads` pair of the standard library is modelled at the level of JSON
values: a serialized snapshot is represented by the `Json` value it encodes.
-/

inductive Json where
  | null
  | str (s : String)
  | num (q : ℚ)
  | bool (b : Bool)
  | arr (elems : List Json)
  | obj (fields : List (String × Json))

/-- Dictionary lookup on a JSON object's field list. -/
def jget (fields : List (String × Json)) (k : String) : Option Json :=
  (fields.find? (fun f => f.1 = k)).map (fun f => f.2)

/-! ### ConversationExample serialization (shoggoth_utils.py lines 18-28) -/

/-- Serialization of one message as the dict `{"role": ..., "content": ...}`
(as built in run.py line 237 and shoggoth_utils.py `to_dict`). -/
def Message.to_dict (m : Message) : Json :=
  Json.obj [("role", Json.str m.role), ("content", Json.str m.content)]

/-- Decoding of one message dict; fails on a missing key or a non-string
value. -/
def Message.from_dict : Json → Except String Message
  | Json.obj fs =>
    match jget fs "role", jget fs "content" with
    | some (Json.str r), some (Json.str c) => Except.ok ⟨r, c⟩
    | _, _ => Except.error "KeyError"
  | _ => Except.error "TypeError"

/-- `ConversationExample.to_dict` (shoggoth_utils.py lines 18-23). -/
def ConversationExample.to_dict (ex : ConversationExample) : Json :=
  Json.obj [("messages", Json.arr (ex.messages.map Message.to_dict)),
            ("response", Json.str ex.response)]

/-- `ConversationExample.from_dict` (shoggoth_utils.py lines 25-28): reads
`data["messages"]` and `data["response"]`; a missing key raises `KeyError`,
which the load path catches. -/
def ConversationExample.from_dict : Json → Except String ConversationExample
  | Json.obj fs =>
    match jget fs "messages", jget fs "response" with
    | some (Json.arr ms), some (Json.str r) =>
      match ms.mapM Message.from_dict with
      | Except.ok msgs => Except.ok ⟨msgs, r⟩
      | Except.error e => Except.error e
    | _, _ => Except.error "KeyError"
  | _ => Except.error "TypeError"

/-! ### Redis persistence of the store (shoggoth_utils.py lines 60-87) -/

/-- `save_redis_conversation_examples` (shoggoth_utils.py lines 77-87): the
serialized snapshot written under the `...:conversations` key is the JSON
array of `to_dict` of every stored example, in order. -/
def save_redis_conversation_examples
    (store : List ConversationExample) : Json :=
  Json.arr (store.map ConversationExample.to_dict)

/-- Deserialization of a snapshot: `json.loads` must produce a list and the
comprehension `[ConversationExample.from_dict(ex) for ex in examples_data]`
raises on its first failing element. -/
def parseExamples : Json → Except String (List ConversationExample)
  | Json.arr es => es.mapM ConversationExample.from_dict
  | _ => Except.error "TypeError"

/-- `load_redis_conversation_examples` (shoggoth_utils.py lines 60-75).
`fetched` is the outcome of `redis_client.get`: an error, no value, or a
snapshot.  The whole body is wrapped in `try/except`, so on any failure the
function only prints and the store keeps its previous contents; on success
the store is replaced by `deque(parsed, maxlen=1000)`. -/
def load_redis_conversation_examples (store : List ConversationExample)
    (fetched : Except String (Option Json)) : List ConversationExample :=
  match fetched with
  | Except.error _ => store
  | Except.ok none => store
  | Except.ok (some raw) =>
    match parseExamples raw with
    | Except.error _ => store
    | Except.ok exs => takeLast 1000 exs

/-- True when the load path hits an exception (fetch failure, or a snapshot
whose deserialization fails). -/
def loadFails (fetched : Except String (Option Json)) : Bool :=
  match fetched with
  | Except.error _ => true
  | Except.ok none => false
  | Except.ok (some raw) =>
    match parseExamples raw with
    | Except.error _ => true
    | Except.ok _ => false

/-! ### Request validation (run.py lines 55-60)

`ChatCompletionRequest(**raw_body)` validates the raw JSON body against the
declared fields: `model : str` and `messages : List[Message]` are required,
`stream : bool = False`, `temperature : float = 0.7` and
`max_tokens : int = 4000` are optional with defaults.  The validation
library's type-coercion rules are abstracted: a field must be of the
declared JSON type.  Failure raises before anything else happens. -/

structure ChatCompletionRequest where
  model : String
  messages : List Message
  stream : Bool
  temperature : ℚ
  max_tokens : ℤ
deriving Repr, DecidableEq

/-- Validation of the optional `stream` field. -/
def parseStreamField : Option Json → Except String Bool
  | none => Except.ok false
  | some (Json.bool b) => Except.ok b
  | some _ => Except.error "validation error: stream"

/-- Validation of the optional `temperature` field. -/
def parseTemperatureField : Option Json → Except String ℚ
  | none => Except.ok ((7 : ℚ) / 10)
  | some (Json.num q) => Except.ok q
  | some _ => Except.error "validation error: temperature"

/-- Validation of the optional `max_tokens` field (an integer). -/
def parseMaxTokensField : Option Json → Except String ℤ
  | none => Except.ok 4000
  | some (Json.num q) =>
    if q.den = 1 then Except.ok q.num
    else Except.error "validation error: max_tokens"
  | some _ => Except.error "validation error: max_tokens"

/-- The whole-body validation performed by `ChatCompletionRequest(**raw_body)`
at run.py line 160. -/
def ChatCompletionRequest.validate (body : Json) :
    Except String ChatCompletionRequest :=
  match body with
  | Json.obj fs =>
    match jget fs "model", jget fs "messages" with
    | some (Json.str model), some (Json.arr msgsJ) =>
      match msgsJ.mapM Message.from_dict with
      | Except.error _ => Except.error "validation error: messages"
      | Except.ok msgs =>
        match parseStreamField (jget fs "stream"),
              parseTemperatureField (jget fs "temperature"),
              parseMaxTokensField (jget fs "max_tokens") with
        | Except.ok st, Except.ok te, Except.ok mt =>
          Except.ok ⟨model, msgs, st, te, mt⟩
        | _, _, _ => Except.error "validation error: field"
    | _, _ => Except.error "validation error: model or messages"
  | _ => Except.error "validation error: body"

/-- True when `ChatCompletionRequest(**raw_body)` raises. -/
def validationFails (body : Json) : Bool :=
  match ChatCompletionRequest.validate body with
  | Except.error _ => true
  | Except.ok _ => false

/-! ### The stream relay (run.py lines 194-199)

Upstream chunks are byte strings; they are modelled as their text under
UTF-8, so `chunk.decode("utf-8", errors="replace")` is the identity (the
replacement of invalid byte sequences is below the granularity of this
model). -/

/-- `chunk.decode("utf-8", errors="replace")` on a valid-UTF-8 chunk. -/
def decodeChunk (chunk : String) : String := chunk

/-- `generate_stream` (run.py lines 194-199) as a pure function: starting
from the current value of the `full_response` accumulator, it yields every
upstream chunk verbatim, and appends each chunk's decoded text to the
accumulator.  Returns (yielded chunks, final accumulator). -/
def generate_stream (full_response : String) :
    List String → List String × String
  | [] => ([], full_response)
  | chunk :: rest =>
    let decoded := decodeChunk chunk
    let out := generate_stream (full_response ++ decoded) rest
    (chunk :: out.1, out.2)

/-! ### The request handler (run.py lines 146-273) -/

/-- The sentinel substituted for an empty accumulated response
(run.py line 225). -/
def sentinel : String := "[No response from upstream]"

/-- The test `not full_response.strip()` (run.py line 224): true exactly
when the string has no non-whitespace character. -/
def isBlank (s : String) : Bool :=
  s.data.all (fun c => c.isWhitespace)

/-- The default upstream base URL (run.py line 153). -/
def defaultUpstream : String := "https://openrouter.ai/api/v1"

/-- Observable events of one request handling, in order of occurrence. -/
inductive Ev where
  | logRequest
  | upstreamCall (url : String)
  | logError (msg : String)
  | logResponse (text : String)
  | appendExample (ex : ConversationExample)
  | collaboratorCall (current : String) (history : List Message)
  | redisSave
  | comprehensiveLog
  | yieldChunk (bytes : String)
deriving Repr, DecidableEq

/-- How the handler terminates, as seen by the caller. -/
inductive HandlerOutcome where
  | httpError (status : Nat) (detail : String)
  | validationError (msg : String)
  | streamed
deriving Repr, DecidableEq

/-- The result of one run of the handler: its outcome, the ordered trace of
events, the new store contents, and the final value of the `full_response`
accumulator. -/
structure HandlerRun where
  outcome : HandlerOutcome
  events : List Ev
  store : List ConversationExample
  finalAccum : String
deriving Repr, DecidableEq

/-- The `finally` block of `proxy_chat_completions` (run.py lines 222-273):
substitute the sentinel when the accumulated `full_response` is blank, log
the response, append a `ConversationExample` to the store, invoke the
response-generation collaborator, save to Redis when available, and write
the consolidated log.  Returns the (possibly substituted) `full_response`,
the events in order, and the new store. -/
def finallyBlock (full_response : String) (req : ChatCompletionRequest)
    (current : String) (history : List Message) (redisAvailable : Bool)
    (store : List ConversationExample) :
    String × List Ev × List ConversationExample :=
  let fr := if isBlank full_response then sentinel else full_response
  let ex : ConversationExample := ⟨req.messages, fr⟩
  (fr,
   [Ev.logResponse fr, Ev.appendExample ex,
    Ev.collaboratorCall current history]
     ++ (if redisAvailable then [Ev.redisSave] else [])
     ++ [Ev.comprehensiveLog],
   dequeAppend 1000 store ex)

/-- `proxy_chat_completions` (run.py lines 146-273), embedded as a pure
function of the `p` query parameter, the JSON body, the upstream outcome
(`client.send` raises, or succeeds with a list of byte chunks), Redis
availability, and the current store.

A crucial consequence of Python semantics is embedded here: on the success
path the handler executes `return StreamingResponse(generate_stream())`
inside `try`, so the `finally` block runs when the handler function
*returns the response object* — before the web framework has consumed a
single chunk of the async generator.  The accumulator is therefore blank
(and substituted by the sentinel) at bookkeeping time, and the chunk-yield
events come after every bookkeeping event; the drained chunks accumulate on
top of the already-substituted sentinel via `nonlocal full_response`.  On
the upstream-failure path, the `except` block runs, then `finally`, then
the `HTTPException(500)` propagates. -/
def proxy_chat_completions (p : Option String) (body : Json)
    (upstream : Except String (List String)) (redisAvailable : Bool)
    (store : List ConversationExample) : HandlerRun :=
  let upstream_url := p.getD defaultUpstream
  if upstream_url = "" then
    ⟨HandlerOutcome.httpError 400 "Missing proxy 'p' parameter", [], store, ""⟩
  else
    match ChatCompletionRequest.validate body with
    | Except.error e =>
      ⟨HandlerOutcome.validationError e, [], store, ""⟩
    | Except.ok req =>
      let eh := extract_current_message_and_history req.messages
      match upstream with
      | Except.error e =>
        let fin := finallyBlock "" req eh.1 eh.2 redisAvailable store
        ⟨HandlerOutcome.httpError 500 e,
         [Ev.logRequest, Ev.upstreamCall (upstream_url ++ "/chat/completions"),
          Ev.logError e, Ev.comprehensiveLog] ++ fin.2.1,
         fin.2.2, fin.1⟩
      | Except.ok chunks =>
        let fin := finallyBlock "" req eh.1 eh.2 redisAvailable store
        let drained := generate_stream fin.1 chunks
        ⟨HandlerOutcome.streamed,
         [Ev.logRequest, Ev.upstreamCall (upstream_url ++ "/chat/completions")]
           ++ fin.2.1 ++ drained.1.map Ev.yieldChunk,
         fin.2.2, drained.2⟩

/-! ### Concrete fixtures used in witnesses and counterexamples -/

/-- A one-message conversation. -/
def msgs0 : List Message := [⟨"user", "hello"⟩]

/-- A well-formed request body carrying `msgs0` and relying on the declared
defaults for the optional fields. -/
def body0 : Json :=
  Json.obj [("model", Json.str "m"),
            ("messages",
             Json.arr [Json.obj [("role", Json.str "user"),
                                 ("content", Json.str "hello")]])]

/-- The request `body0` validates to. -/
def req0 : ChatCompletionRequest := ⟨"m", msgs0, false, (7 : ℚ) / 10, 4000⟩

/-- A malformed request body: the required `model` and `messages` fields are
missing. -/
def badBody : Json := Json.obj []

/-- A stored conversation example. -/
def ex0 : ConversationExample := ⟨msgs0, "ok"⟩

/-- The first SSE chunk of the relay-cycle test vector:
`data: {"choices":[{"delta":{"content":"Hi"}}]}\n`. -/
def chunk1 : String :=
  "data: \x7b\"choices\":[\x7b\"delta\":\x7b\"content\":\"Hi\"\x7d\x7d]\x7d\n"

/-- The second SSE chunk of the relay-cycle test vector. -/
def chunk2 : String := "data: [DONE]\n"

/-- A single upstream chunk whose decoded text is `"Hi"`. -/
def chunkHi : String := "Hi"

/-! ## Theorems -/

/-! ### Deque lemmas -/

theorem takeLast_eq_self {l : List α} {n : Nat} (h : l.length ≤ n) :
    takeLast n l = l := by
  simp [takeLast, Nat.sub_eq_zero_of_le h]

theorem takeLast_length (n : Nat) (l : List α) :
    (takeLast n l).length = min n l.length := by
  simp [takeLast]
  omega

theorem takeLast_cons {l : List α} {n : Nat} (a : α) (h : n ≤ l.length) :
    takeLast n (a :: l) = takeLast n l := by
  unfold takeLast
  have hlen : (a :: l).length - n = (l.length - n) + 1 := by
    simp only [List.length_cons]
    omega
  rw [hlen, List.drop_succ_cons]

theorem dequeAppend_length_le {cap : Nat} {q : List α} (x : α)
    (hq : q.length ≤ cap) (hcap : 0 < cap) :
    (dequeAppend cap q x).length ≤ cap := by
  unfold dequeAppend
  by_cases h : q.length < cap
  · simp [h]
    omega
  · simp [h]
    omega

theorem dequeAppendAll_eq_takeLast {cap : Nat} (hcap : 0 < cap) :
    ∀ (xs q : List α), q.length ≤ cap →
      dequeAppendAll cap q xs = takeLast cap (q ++ xs) := by
  intro xs
  induction xs with
  | nil =>
    intro q hq
    simp [dequeAppendAll, takeLast_eq_self hq]
  | cons x xs ih =>
    intro q hq
    have hstep : dequeAppendAll cap q (x :: xs)
        = dequeAppendAll cap (dequeAppend cap q x) xs := rfl
    rw [hstep, ih (dequeAppend cap q x) (dequeAppend_length_le x hq hcap)]
    by_cases h : q.length < cap
    · have hqa : dequeAppend cap q x = q ++ [x] := by
        unfold dequeAppend
        simp [h]
      rw [hqa, List.append_assoc]
      rfl
    · have hfull : q.length = cap := by omega
      match q with
      | [] =>
        simp at hfull
        omega
      | a :: q' =>
        have hqa : dequeAppend cap (a :: q') x = q' ++ [x] := by
          unfold dequeAppend
          rw [if_neg h]
          simp
        simp only [List.length_cons] at hfull
        have hL : (q' ++ [x]) ++ xs = q' ++ x :: xs := by simp
        have hR : (a :: q') ++ x :: xs = a :: (q' ++ x :: xs) := rfl
        rw [hqa, hL, hR, takeLast_cons a ?hle]
        case hle =>
          simp
          omega

/-! ### History-extractor lemmas -/

theorem splitLastUser_none (ms : List Message)
    (h : ∀ m ∈ ms, m.role ≠ "user") : splitLastUser ms = none := by
  induction ms with
  | nil => rfl
  | cons m ms ih =>
    unfold splitLastUser
    rw [ih (fun x hx => h x (List.mem_cons_of_mem m hx))]
    simp [h m (List.mem_cons_self m ms)]

theorem splitLastUser_eq (pre post : List Message) (u : Message)
    (hu : u.role = "user") (hpost : ∀ m ∈ post, m.role ≠ "user") :
    splitLastUser (pre ++ u :: post) = some (pre, u) := by
  induction pre with
  | nil =>
    rw [List.nil_append]
    unfold splitLastUser
    rw [splitLastUser_none post hpost]
    simp [hu]
  | cons m pre ih =>
    rw [List.cons_append]
    unfold splitLastUser
    rw [ih]

/-! ### Claim theorems -/

/-- C5: the last-message history extractor returns the content of the last
message as `current` and all messages but the last, in original order, as
`history`; on the empty sequence it returns the empty string and the empty
sequence. -/
theorem c5_last_message_extractor (init : List Message) (lastM : Message) :
    extract_current_message_and_history [] = ("", []) ∧
    extract_current_message_and_history (init ++ [lastM])
      = (lastM.content, init) := by
  refine ⟨rfl, ?_⟩
  unfold extract_current_message_and_history
  rw [List.getLast?_concat, List.dropLast_concat]

/-- C6: on a sequence with at least one `user`-role message the alternate
extraction mode returns the content of the last such message as `current`
and every message strictly before it, in original order, as `history`; on a
sequence with no `user` message it returns an empty `current` and the whole
sequence as `history`. -/
theorem c6_last_user_extractor (pre post ms : List Message) (u : Message)
    (hu : u.role = "user") (hpost : ∀ m ∈ post, m.role ≠ "user")
    (hms : ∀ m ∈ ms, m.role ≠ "user") :
    extract_current_message_and_history_from_messages (pre ++ u :: post)
      = (u.content, pre) ∧
    extract_current_message_and_history_from_messages ms = ("", ms) := by
  constructor
  · unfold extract_current_message_and_history_from_messages
    rw [splitLastUser_eq pre post u hu hpost]
  · unfold extract_current_message_and_history_from_messages
    rw [splitLastUser_none ms hms]

/-- Witness for C6 at a concrete three-message conversation whose last user
message is in the middle. -/
theorem c6_last_user_extractor_witness :
    (Message.mk "user" "hi").role = "user" ∧
    extract_current_message_and_history_from_messages
        ([⟨"system", "s"⟩] ++ ⟨"user", "hi"⟩ :: [⟨"assistant", "a"⟩])
      = ("hi", [⟨"system", "s"⟩]) ∧
    extract_current_message_and_history_from_messages [⟨"assistant", "a"⟩]
      = ("", [⟨"assistant", "a"⟩]) := by
  have h := c6_last_user_extractor [⟨"system", "s"⟩] [⟨"assistant", "a"⟩]
    [⟨"assistant", "a"⟩] ⟨"user", "hi"⟩ rfl (by decide) (by decide)
  exact ⟨rfl, h.1, h.2⟩

/-- C4: starting from any store contents within capacity, any sequence of
appends keeps the Example Store at no more than 1000 entries; and appending
N > 1000 examples to an initially empty store leaves exactly the most
recently appended 1000, in their original relative order. -/
theorem c4_store_capacity (q xs : List ConversationExample)
    (hq : q.length ≤ 1000) :
    (dequeAppendAll 1000 q xs).length ≤ 1000 ∧
    (q = [] → 1000 < xs.length →
      dequeAppendAll 1000 q xs = xs.drop (xs.length - 1000) ∧
      (dequeAppendAll 1000 q xs).length = 1000) := by
  have h := dequeAppendAll_eq_takeLast (by norm_num) xs q hq
  constructor
  · rw [h, takeLast_length]
    omega
  · intro hq0 hlen
    subst hq0
    constructor
    · rw [h]
      simp [takeLast]
    · rw [h, takeLast_length]
      simp
      omega

/-- Witness for C4: appending 1001 copies of a concrete example to the
empty store leaves the last 1000 of them. -/
theorem c4_store_capacity_witness :
    ([] : List ConversationExample).length ≤ 1000 ∧
    1000 < (List.replicate 1001 ex0).length ∧
    dequeAppendAll 1000 [] (List.replicate 1001 ex0)
      = (List.replicate 1001 ex0).drop ((List.replicate 1001 ex0).length - 1000) := by
  refine ⟨by simp, by rw [List.length_replicate]; omega, ?_⟩
  exact ((c4_store_capacity [] (List.replicate 1001 ex0) (by simp)).2
    rfl (by rw [List.length_replicate]; omega)).1

/-- C2 counterexample: on the two-chunk relay cycle of the claim the bytes
yielded are indeed the two input chunks, but the accumulated response text
is the raw concatenation of the decoded chunks, not the extracted delta
content `"Hi"`; the conjunction claimed is therefore false. -/
theorem c2_relay_cycle_counterexample :
    ¬ ((generate_stream "" [chunk1, chunk2]).1 = [chunk1, chunk2] ∧
       (generate_stream "" [chunk1, chunk2]).2 = "Hi") := by
  decide

/-- C2 (amended): on the two-chunk relay cycle, the bytes yielded to the
caller are byte-for-byte the two input chunks in order, and the accumulated
response text is the concatenation of the two decoded chunks (the relay
never parses the SSE payload, so the accumulator holds the raw event text,
not `"Hi"`). -/
theorem c2_relay_cycle_amended :
    (generate_stream "" [chunk1, chunk2]).1 = [chunk1, chunk2] ∧
    (generate_stream "" [chunk1, chunk2]).2 = chunk1 ++ chunk2 := by
  constructor <;> rfl

/-! ### Serialization round-trip lemmas -/

theorem Message.from_dict_of_to_dict (m : Message) :
    Message.from_dict m.to_dict = Except.ok m := rfl

theorem mapM_from_dict_map_to_dict (ms : List Message) :
    (ms.map Message.to_dict).mapM Message.from_dict = Except.ok ms := by
  induction ms with
  | nil => rfl
  | cons m ms ih =>
    rw [List.map_cons, List.mapM_cons, Message.from_dict_of_to_dict m, ih]
    rfl

theorem ConversationExample.from_dict_roundtrip (ex : ConversationExample) :
    ConversationExample.from_dict ex.to_dict = Except.ok ex := by
  show (match (ex.messages.map Message.to_dict).mapM Message.from_dict with
        | Except.ok msgs => Except.ok (ConversationExample.mk msgs ex.response)
        | Except.error e => Except.error e) = Except.ok ex
  rw [mapM_from_dict_map_to_dict]

theorem parseExamples_save (store : List ConversationExample) :
    parseExamples (save_redis_conversation_examples store)
      = Except.ok store := by
  show (store.map ConversationExample.to_dict).mapM
      ConversationExample.from_dict = Except.ok store
  induction store with
  | nil => rfl
  | cons ex store ih =>
    rw [List.map_cons, List.mapM_cons, ConversationExample.from_dict_roundtrip,
      ih]
    rfl

/-- C7: `saveAll` followed by `loadAll` from the same key, with no
intervening external write, reproduces a store with identical contents and
order — deserialization is a left inverse of serialization for sequences of
`ConversationExample`s (within the store's capacity invariant). -/
theorem c7_save_load_roundtrip (store prior : List ConversationExample)
    (h : store.length ≤ 1000) :
    load_redis_conversation_examples prior
        (Except.ok (some (save_redis_conversation_examples store)))
      = store := by
  simp only [load_redis_conversation_examples]
  rw [parseExamples_save]
  exact takeLast_eq_self h

/-- Witness for C7 at a concrete one-element store. -/
theorem c7_save_load_roundtrip_witness :
    ([ex0] : List ConversationExample).length ≤ 1000 ∧
    load_redis_conversation_examples []
        (Except.ok (some (save_redis_conversation_examples [ex0])))
      = [ex0] :=
  ⟨by simp, c7_save_load_roundtrip [ex0] [] (by simp)⟩

/-- C10: `loadAll` is atomic on failure — if the snapshot fetch fails, or
the deserialization of the snapshot or of any of its elements fails, the
in-memory store keeps exactly its previous contents (and the embedded
function is total, so no exception escapes to the caller). -/
theorem c10_load_atomic_on_failure (store : List ConversationExample)
    (fetched : Except String (Option Json))
    (h : loadFails fetched = true) :
    load_redis_conversation_examples store fetched = store := by
  cases fetched with
  | error e => rfl
  | ok v =>
    cases v with
    | none => rfl
    | some raw =>
      simp only [load_redis_conversation_examples]
      simp only [loadFails] at h
      cases hp : parseExamples raw with
      | error e => rfl
      | ok exs =>
        rw [hp] at h
        exact absurd h (by simp)

/-- Witness for C10: a snapshot that is not a JSON array makes
deserialization fail and leaves a concrete one-element store unchanged. -/
theorem c10_load_atomic_on_failure_witness :
    loadFails (Except.ok (some (Json.str "junk"))) = true ∧
    load_redis_conversation_examples [ex0]
        (Except.ok (some (Json.str "junk")))
      = [ex0] :=
  ⟨rfl, c10_load_atomic_on_failure [ex0] (Except.ok (some (Json.str "junk"))) rfl⟩

/-- C8: a request body that fails validation makes the handler raise before
the upstream call — the outcome is not a streamed response and the event
trace contains no upstream call at all. -/
theorem c8_malformed_rejected_before_upstream (p : Option String)
    (body : Json) (upstream : Except String (List String))
    (redisAvailable : Bool) (store : List ConversationExample)
    (h : validationFails body = true) :
    (proxy_chat_completions p body upstream redisAvailable store).outcome
      ≠ HandlerOutcome.streamed ∧
    ∀ url, Ev.upstreamCall url
      ∉ (proxy_chat_completions p body upstream redisAvailable store).events := by
  simp only [validationFails] at h
  by_cases hurl : p.getD defaultUpstream = ""
  · have hrun : proxy_chat_completions p body upstream redisAvailable store
        = ⟨HandlerOutcome.httpError 400 "Missing proxy 'p' parameter",
           [], store, ""⟩ := by
      unfold proxy_chat_completions
      rw [if_pos hurl]
    rw [hrun]
    exact ⟨by simp, by simp⟩
  · cases hv : ChatCompletionRequest.validate body with
    | error e =>
      have hrun : proxy_chat_completions p body upstream redisAvailable store
          = ⟨HandlerOutcome.validationError e, [], store, ""⟩ := by
        unfold proxy_chat_completions
        rw [if_neg hurl, hv]
      rw [hrun]
      exact ⟨by simp, by simp⟩
    | ok req =>
      rw [hv] at h
      exact absurd h (by simp)

/-- Witness for C8: a body missing the required fields is rejected with no
upstream call even though the upstream would have succeeded. -/
theorem c8_malformed_rejected_before_upstream_witness :
    validationFails badBody = true ∧
    (proxy_chat_completions none badBody (Except.ok ["x"]) true []).outcome
      ≠ HandlerOutcome.streamed ∧
    Ev.upstreamCall (defaultUpstream ++ "/chat/completions")
      ∉ (proxy_chat_completions none badBody (Except.ok ["x"]) true []).events := by
  have h := c8_malformed_rejected_before_upstream none badBody
    (Except.ok ["x"]) true [] rfl
  exact ⟨rfl, h.1, h.2 (defaultUpstream ++ "/chat/completions")⟩

/-- C9 counterexample: the 400 "Missing proxy 'p' parameter" branch is
reachable — supplying the `p` query parameter with an empty value makes the
handler reject the request with exactly that error, so the branch is not
unreachable for all inputs. -/
theorem c9_missing_p_counterexample :
    (proxy_chat_completions (some "") body0 (Except.ok []) true []).outcome
      = HandlerOutcome.httpError 400 "Missing proxy 'p' parameter" := rfl

/-- C9 (amended): a request that omits the `p` query parameter is never
rejected with the 400 "Missing proxy 'p' parameter" error — the default
upstream base URL is substituted, and any upstream call it makes targets
that default; the 400 branch is reachable only when `p` is supplied with an
empty value. -/
theorem c9_amended_default_upstream (body : Json)
    (upstream : Except String (List String)) (redisAvailable : Bool)
    (store : List ConversationExample) :
    (proxy_chat_completions none body upstream redisAvailable store).outcome
      ≠ HandlerOutcome.httpError 400 "Missing proxy 'p' parameter" ∧
    ∀ url, Ev.upstreamCall url
        ∈ (proxy_chat_completions none body upstream redisAvailable store).events →
      url = defaultUpstream ++ "/chat/completions" := by
  unfold proxy_chat_completions
  rw [show (none : Option String).getD defaultUpstream = defaultUpstream
      from rfl,
    if_neg (by decide : ¬ (defaultUpstream = ""))]
  cases hv : ChatCompletionRequest.validate body with
  | error e => exact ⟨by simp, by simp⟩
  | ok req =>
    cases upstream with
    | error e =>
      refine ⟨by simp, ?_⟩
      intro url hmem
      cases redisAvailable <;>
        simp [finallyBlock, defaultUpstream] at hmem ⊢ <;>
        exact hmem
    | ok chunks =>
      refine ⟨by simp, ?_⟩
      intro url hmem
      cases redisAvailable <;>
        simp [finallyBlock, defaultUpstream] at hmem ⊢ <;>
        exact hmem

/-- Witness for C9 (amended): with `p` omitted, a concrete well-formed
request is not rejected and the upstream call targets the default base
URL. -/
theorem c9_amended_default_upstream_witness :
    (proxy_chat_completions none body0 (Except.ok []) true []).outcome
      ≠ HandlerOutcome.httpError 400 "Missing proxy 'p' parameter" ∧
    Ev.upstreamCall (defaultUpstream ++ "/chat/completions")
      ∈ (proxy_chat_completions none body0 (Except.ok []) true []).events := by
  refine ⟨(c9_amended_default_upstream body0 (Except.ok []) true []).1, ?_⟩
  decide

/-- C3: whenever the upstream call fails, and also whenever it succeeds
with a stream whose accumulated text is empty, the `ConversationExample`
appended to the store for the request carries the sentinel as its
`response`, and the sentinel is not the empty string. -/
theorem c3_sentinel_on_failure_or_empty (p : Option String) (body : Json)
    (req : ChatCompletionRequest) (upstream : Except String (List String))
    (redisAvailable : Bool) (store : List ConversationExample)
    (hp : ¬ (p.getD defaultUpstream = ""))
    (hv : ChatCompletionRequest.validate body = Except.ok req)
    (hfail : (∃ e, upstream = Except.error e) ∨
      (∃ chunks, upstream = Except.ok chunks ∧
        String.join (chunks.map decodeChunk) = "")) :
    (proxy_chat_completions p body upstream redisAvailable store).store
      = dequeAppend 1000 store ⟨req.messages, sentinel⟩ ∧
    sentinel ≠ "" := by
  refine ⟨?_, by decide⟩
  unfold proxy_chat_completions
  rw [if_neg hp, hv]
  have ht : isBlank "" = true := rfl
  cases upstream with
  | error e => simp [finallyBlock, ht]
  | ok chunks => simp [finallyBlock, ht]

/-- Witness for C3: a concrete request whose upstream call fails gets the
sentinel-bearing example appended. -/
theorem c3_sentinel_on_failure_or_empty_witness :
    ¬ ((none : Option String).getD defaultUpstream = "") ∧
    ChatCompletionRequest.validate body0 = Except.ok req0 ∧
    (proxy_chat_completions none body0 (Except.error "boom") true []).store
      = dequeAppend 1000 [] ⟨msgs0, sentinel⟩ := by
  refine ⟨by decide, rfl, ?_⟩
  exact (c3_sentinel_on_failure_or_empty none body0 req0
    (Except.error "boom") true [] (by decide) rfl
    (Or.inl ⟨"boom", rfl⟩)).1

/-- C1 (evidence of the code bug): on a concrete request whose upstream
stream completes successfully with the single chunk `"Hi"`, the handler's
event trace places the response log, the example append, the collaborator
invocation, the persistence save and the consolidated log *before* the
chunk-yield event — the `finally` block runs when the handler returns the
streaming response object, before the framework drains the generator — and
the appended example's `response` is the sentinel, not the accumulated
stream text `"Hi"`. -/
theorem c1_bookkeeping_before_drain :
    (proxy_chat_completions none body0 (Except.ok [chunkHi]) true []).events
      = [Ev.logRequest,
         Ev.upstreamCall (defaultUpstream ++ "/chat/completions"),
         Ev.logResponse sentinel,
         Ev.appendExample ⟨msgs0, sentinel⟩,
         Ev.collaboratorCall "hello" [],
         Ev.redisSave,
         Ev.comprehensiveLog,
         Ev.yieldChunk chunkHi] ∧
    (proxy_chat_completions none body0 (Except.ok [chunkHi]) true []).store
      = [⟨msgs0, sentinel⟩] ∧
    sentinel ≠ "Hi" := by
  refine ⟨rfl, rfl, by decide⟩

end Shoggoth
